import Mathlib

/-!
Verification development for the skinny-mutex library
(src/skinny_mutex.h, src/skinny_mutex.c).

A `skinny_mutex_t` is a single pointer-sized word `val`.  The word is `0`
when the mutex is unlocked and uncontended, `1` when it is held and
uncontended, and otherwise a pointer to a heap block: either a `fat_mutex`
(a pthread mutex, a condition variable and bookkeeping) or, transiently, a
`peg` shielding a `fat_mutex` from reclamation.

The embedding below gives each operation its sequential semantics: the
behaviour of one call running with no interference from other threads.
Under that semantics every compare-and-swap whose expected value equals the
current word succeeds, a peg installed by `fat_mutex_peg` is immediately
the whole primary chain (so the chain-collapse loops take their short
paths), and the results of the external pthread calls that can fail
(`pthread_cond_signal`, `pthread_cond_wait`, `pthread_cond_timedwait`) are
oracle parameters.  `pthread_mutex_lock`/`unlock`/`init` and
`pthread_cond_init` on the fat block are modelled as succeeding, and heap
allocation success is an explicit boolean parameter.  Transient states in
which the handle word points at a peg exist only in the middle of
`fat_mutex_peg` and are therefore not part of the state type.

`unsigned long` counters are modelled as `Nat` with arithmetic modulo
`2 ^ 64`, so that the decrement of a zero counter wraps around exactly as
the C code's does.
-/

namespace SkinnyMutex

/-- Modulus of the `unsigned long` fields (`waiters`, `refcount`) of a
`fat_mutex`: the code targets machines where `unsigned long` is 64 bits. -/
def W : Nat := 2 ^ 64

/-- Increment of an `unsigned long`: `n++` with wraparound. -/
def incW (n : Nat) : Nat := (n + 1) % W

/-- Decrement of an `unsigned long`: `n--` with wraparound, so `decW 0`
is `2 ^ 64 - 1`, not `0`. -/
def decW (n : Nat) : Nat := (n + (W - 1)) % W

/-- errno value returned for operations that require the caller to hold
the mutex. -/
def EPERM : Int := 1

/-- errno value returned when a heap allocation fails. -/
def ENOMEM : Int := 12

/-- errno value returned by `skinny_mutex_destroy` on a non-idle handle
and by `skinny_mutex_trylock` when the mutex is busy. -/
def EBUSY : Int := 16

/-- errno value returned by `pthread_cond_timedwait` on deadline expiry. -/
def ETIMEDOUT : Int := 110

/-- Marker result used by the sequential model for a
`pthread_cond_wait(&fat->held_cond, ...)` that can never be signalled
because no other thread exists; such a call never returns in the modelled
execution.  It is distinct from `0`, from every errno value and from the
retry signal `-1`. -/
def BLOCKED : Int := -2

/-- The fields of `struct fat_mutex` other than the embedded pthread
objects.  `peg` is the one-byte type tag of `struct common` (0 for a fat
mutex, 1 for a peg); `held` is whether the skinny mutex is logically held;
`waiters` counts threads blocked waiting to acquire it; `refcount` counts
the references pinning the block, offset by -1 so that 0 means only the
primary chain references it. -/
structure FatMutex where
  peg : Nat
  held : Bool
  waiters : Nat
  refcount : Nat
  deriving DecidableEq, Repr

/-- The value of the handle word `skinny_mutex_t.val` at an operation
boundary: the null pointer `0`, the reserved value `1`, or a pointer to
the fat mutex.  (A pointer to a peg occurs only transiently inside
`fat_mutex_peg` and never at an operation boundary of the sequential
model.) -/
inductive Word where
  | w0
  | w1
  | fatPtr
  deriving DecidableEq, Repr

/-- The state touched by one sequential call: the handle word, the fat
block it is associated with (`none` when no fat block is allocated), the
lock state of the fat block's pthread mutex, and allocation ledgers used
to express "destroyed and freed": `liveFat` counts `malloc`ed fat blocks
not yet `free`d, `liveMutex` and `liveCond` count pthread mutexes and
condition variables of fat blocks initialized and not yet destroyed, and
`livePeg` counts `malloc`ed pegs not yet `free`d. -/
structure SeqState where
  val : Word
  fat : Option FatMutex
  fatLocked : Bool
  liveFat : Nat
  liveMutex : Nat
  liveCond : Nat
  livePeg : Nat
  deriving DecidableEq, Repr

/-- The `held` flag of the fat block reachable from the state, `false`
when there is none. -/
def fatHeld (s : SeqState) : Bool :=
  match s.fat with
  | some f => f.held
  | none => false

/-- The `waiters` count of the fat block reachable from the state, `0`
when there is none. -/
def fatWaiters (s : SeqState) : Nat :=
  match s.fat with
  | some f => f.waiters
  | none => 0

/-- `fat->refcount++` applied to the state's fat block. -/
def bumpRefcount (s : SeqState) : SeqState :=
  { s with fat := s.fat.map fun f => { f with refcount := incW f.refcount } }

/-- `fat->held = b` applied to the state's fat block. -/
def setHeld (s : SeqState) (b : Bool) : SeqState :=
  { s with fat := s.fat.map fun f => { f with held := b } }

/-- Model of `fat_mutex_peg` (src/skinny_mutex.c:228): given a handle
containing a pointer, install a peg, walk to the fat mutex and lock it.

Sequential trace, mirroring the source: `malloc` a peg (`common.peg = 1`,
`refcount = 2`, `next = p`); the installing `cas(&skinny->val, p, peg)`
succeeds first try since nothing interferes; the chain walk finds the fat
mutex immediately (`p->peg` fails at once, the chain is handle → peg →
fat); `pthread_mutex_lock(&fat->mutex)` succeeds; the
`atomic_xchg(&skinny->val, fat)` collapse returns our own peg;
`fat->refcount++` accounts for the theoretical new reference; the first
chain-walk loop stops at once with `p == &peg->common`, choosing
`peg_refcount_decr = 2`; the second loop does
`atomic_sub_and_test(&peg->refcount, 2) = 0`, frees the peg, and its
`next` is the fat mutex, so `fat->refcount--` undoes the increment.  Net:
the handle word points at the fat mutex, the fat mutex is locked, its
refcount and the allocation ledgers are written up and back down. -/
def fat_mutex_peg (s : SeqState) (allocOK : Bool) : Int × SeqState :=
  if !allocOK then (ENOMEM, s)
  else
    match s.fat with
    | none => (-1, s)
    | some f =>
      let f1 := { f with refcount := incW f.refcount }
      let f2 := { f1 with refcount := decW f1.refcount }
      (0, { s with
            val := Word.fatPtr, fat := some f2, fatLocked := true,
            livePeg := s.livePeg + 1 - 1 })

/-- Model of `skinny_mutex_promote` (src/skinny_mutex.c:361): allocate a
fat mutex and try to install it in a handle previously observed to
contain `head` (`0` or `1`).  The new block has `common.peg = 0`,
`held = !!head`, `refcount = fat->held` (the holder's pseudo-reference)
and `waiters = 0`; its pthread mutex and condition variable are
initialized and its mutex acquired (modelled as succeeding).  The
installing `cas(&skinny->val, head, fat)` succeeds exactly when the
handle still contains `head`; on failure the mutex is unlocked, the
condition variable and mutex destroyed, the block freed, and the retry
signal `-1` returned. -/
def skinny_mutex_promote (s : SeqState) (head : Word) (allocOK : Bool) :
    Int × SeqState :=
  if !allocOK then (ENOMEM, s)
  else
    let fat : FatMutex :=
      { peg := 0, held := head != Word.w0, waiters := 0,
        refcount := if head != Word.w0 then 1 else 0 }
    let s1 := { s with
                liveFat := s.liveFat + 1, liveMutex := s.liveMutex + 1,
                liveCond := s.liveCond + 1 }
    if s.val = head then
      (0, { s1 with val := Word.fatPtr, fat := some fat, fatLocked := true })
    else
      (-1, { s1 with
             liveFat := s1.liveFat - 1, liveMutex := s1.liveMutex - 1,
             liveCond := s1.liveCond - 1 })

/-- Model of `fat_mutex_get` (src/skinny_mutex.c:418): obtain and lock
the fat mutex of a handle whose word was observed to be `head`, promoting
when `head <= 1` and pegging when it is a pointer. -/
def fat_mutex_get (s : SeqState) (head : Word) (allocOK : Bool) :
    Int × SeqState :=
  match head with
  | Word.fatPtr => fat_mutex_peg s allocOK
  | h => skinny_mutex_promote s h allocOK

/-- Model of `fat_mutex_release` (src/skinny_mutex.c:429): decrement the
refcount of the locked fat mutex; if the decremented count is zero and
`strict_cas(&skinny->val, fat, NULL)` succeeds (sequentially: the handle
word points at the fat mutex), unlock, destroy the pthread mutex and
condition variable and free the block; otherwise just unlock.  The
decrement is the C `--fat->refcount` on an `unsigned long`, so a zero
count wraps around to `2 ^ 64 - 1`. -/
def fat_mutex_release (s : SeqState) : Int × SeqState :=
  match s.fat with
  | none => (0, s)
  | some f =>
    let rc := decW f.refcount
    if rc = 0 ∧ s.val = Word.fatPtr then
      (0, { s with
            val := Word.w0, fat := none, fatLocked := false,
            liveFat := s.liveFat - 1, liveMutex := s.liveMutex - 1,
            liveCond := s.liveCond - 1 })
    else
      (0, { s with fat := some { f with refcount := rc }, fatLocked := false })

/-- The `do { pthread_cond_wait(&fat->held_cond, &fat->mutex); }
while (fat->held)` loop of `fat_mutex_lock`, entered after
`fat->waiters++`.  `ws` is the oracle of successive wait results.  A wait
result of `0` re-checks `fat->held`, which no other thread can have
cleared in the sequential model, so the loop waits again; when the oracle
is exhausted the wait blocks forever (`BLOCKED`).  A non-zero wait result
takes the error path: `fat->waiters--`, `fat_mutex_release`, and the wait
error (or the release error, had the modelled unlock failed) is
returned. -/
def fat_mutex_lock_wait (s : SeqState) (ws : List Int) : Int × SeqState :=
  match s.fat with
  | none => (0, s)
  | some f =>
    match ws with
    | [] => (BLOCKED, s)
    | w :: rest =>
      if w = 0 then
        if f.held then
          fat_mutex_lock_wait s rest
        else
          (0, { s with
                fat := some { f with
                              waiters := decW f.waiters, held := true },
                fatLocked := false })
      else
        let s1 := { s with fat := some { f with waiters := decW f.waiters } }
        let rs := fat_mutex_release s1
        (if rs.1 ≠ 0 then rs.1 else w, rs.2)

/-- Model of `fat_mutex_lock` (src/skinny_mutex.c:464): acquire the
skinny mutex through its locked fat mutex, whose refcount already
accounts for the calling thread.  If `fat->held` the thread increments
`waiters` and waits on `held_cond` (see `fat_mutex_lock_wait`); once
`held` is observed false it sets `held = 1` and unlocks the fat mutex,
returning the result of `pthread_mutex_unlock` (modelled 0). -/
def fat_mutex_lock (s : SeqState) (ws : List Int) : Int × SeqState :=
  match s.fat with
  | none => (0, { s with fatLocked := false })
  | some f =>
    if f.held then
      fat_mutex_lock_wait
        { s with fat := some { f with waiters := incW f.waiters } } ws
    else
      (0, { s with fat := some { f with held := true }, fatLocked := false })

/-- Model of `skinny_mutex_lock_slow` (src/skinny_mutex.c:494): re-read
the handle word; if it is `0`, recapitulate the fast path
`cas(&skinny->val, 0, 1)` (sequentially it succeeds); otherwise obtain
the locked fat mutex, do `fat->refcount++` for this thread, and enter
`fat_mutex_lock`.  Sequentially `fat_mutex_get` never returns the
negative retry signal, so the `for (;;)` loop runs once. -/
def skinny_mutex_lock_slow (s : SeqState) (allocOK : Bool) (ws : List Int) :
    Int × SeqState :=
  let head := s.val
  if head = Word.w0 then
    (0, { s with val := Word.w1 })
  else
    let rs := fat_mutex_get s head allocOK
    if rs.1 = 0 then
      fat_mutex_lock (bumpRefcount rs.2) ws
    else
      rs

/-- Model of `fat_mutex_get_held` (src/skinny_mutex.c:522): obtain and
lock the fat mutex of a handle this thread believes it holds.  If the
word is `0` the caller cannot be the holder: `EPERM`.  Otherwise obtain
the fat mutex; if its `held` flag is false the caller is likewise not
the holder and `EPERM` is returned — as in the source, WITHOUT unlocking
the just-locked `fat->mutex`.  Sequentially `fat_mutex_get` never asks
for a retry, so the `for (;;)` loop runs once. -/
def fat_mutex_get_held (s : SeqState) (allocOK : Bool) : Int × SeqState :=
  let head := s.val
  if head = Word.w0 then
    (EPERM, s)
  else
    let rs := fat_mutex_get s head allocOK
    if rs.1 = 0 then
      (if fatHeld rs.2 then 0 else EPERM, rs.2)
    else
      rs

/-- Model of `skinny_mutex_unlock_slow` (src/skinny_mutex.c:539): obtain
the held fat mutex (propagating its error), set `held = 0`, signal
`held_cond` once if there are waiters (`sig` is the oracle result of
`pthread_cond_signal`), then `fat_mutex_release`; a release error takes
precedence over a signal error. -/
def skinny_mutex_unlock_slow (s : SeqState) (allocOK : Bool) (sig : Int) :
    Int × SeqState :=
  let rs := fat_mutex_get_held s allocOK
  if rs.1 ≠ 0 then
    rs
  else
    let s1 := setHeld rs.2 false
    let res := if fatWaiters s1 ≠ 0 then sig else 0
    let rs2 := fat_mutex_release s1
    (if rs2.1 = 0 then res else rs2.1, rs2.2)

/-- Model of `skinny_mutex_cond_timedwait` (src/skinny_mutex.c:558):
obtain the held fat mutex; signal `held_cond` once if there are waiters
(a signal error unlocks the fat mutex and is returned); set `held = 0`
leaving this thread's refcount contribution in place to pin the fat
mutex; wait on the caller's condition variable with the fat mutex —
`pthread_cond_wait` when `abstime` is `NULL`, `pthread_cond_timedwait`
otherwise, modelled by the oracle `wait` applied to `abstime`.  If the
wait returns `0` or `ETIMEDOUT`, re-acquire through `fat_mutex_lock` and
propagate the wait result (unless re-acquisition itself fails); on any
other wait error, set `held = 1` back (the pthreads contract reports
such errors as though the mutex was never dropped), unlock the fat
mutex, and return the error. -/
def skinny_mutex_cond_timedwait (s : SeqState) (abstime : Option Nat)
    (allocOK : Bool) (sig : Int) (wait : Option Nat → Int) (ws : List Int) :
    Int × SeqState :=
  let rs := fat_mutex_get_held s allocOK
  if rs.1 ≠ 0 then
    rs
  else
    match rs.2.fat with
    | none => rs
    | some f =>
      if f.waiters ≠ 0 ∧ sig ≠ 0 then
        (sig, { rs.2 with fatLocked := false })
      else
        let s2 := { rs.2 with fat := some { f with held := false } }
        let r := wait abstime
        if r = 0 ∨ r = ETIMEDOUT then
          let rs2 := fat_mutex_lock s2 ws
          (if rs2.1 ≠ 0 then rs2.1 else r, rs2.2)
        else
          (r, { s2 with
                fat := some { f with held := true },
                fatLocked := false })

/-- Model of `skinny_mutex_cond_wait` (src/skinny_mutex.c:598): exactly
`skinny_mutex_cond_timedwait` with a NULL `abstime`. -/
def skinny_mutex_cond_wait (s : SeqState) (allocOK : Bool) (sig : Int)
    (wait : Option Nat → Int) (ws : List Int) : Int × SeqState :=
  skinny_mutex_cond_timedwait s none allocOK sig wait ws

/-- Model of `skinny_mutex_init` (src/skinny_mutex.h:8): set the handle
word to `0` and return `0`. -/
def skinny_mutex_init (s : SeqState) : Int × SeqState :=
  (0, { s with val := Word.w0 })

/-- Model of `skinny_mutex_destroy` (src/skinny_mutex.h:14):
`return !m->val ? 0 : EBUSY;` — no write to the handle or to any other
state. -/
def skinny_mutex_destroy (s : SeqState) : Int × SeqState :=
  (if s.val = Word.w0 then 0 else EBUSY, s)

/-- Model of `skinny_mutex_lock` (src/skinny_mutex.h:23): the fast path
`cas(&m->val, 0, 1)` (sequentially: succeeds exactly when the word is
`0`), falling back to `skinny_mutex_lock_slow`. -/
def skinny_mutex_lock (s : SeqState) (allocOK : Bool) (ws : List Int) :
    Int × SeqState :=
  if s.val = Word.w0 then
    (0, { s with val := Word.w1 })
  else
    skinny_mutex_lock_slow s allocOK ws

/-- Model of `skinny_mutex_unlock` (src/skinny_mutex.h:35): the fast
path `cas(&m->val, 1, 0)`, falling back to
`skinny_mutex_unlock_slow`. -/
def skinny_mutex_unlock (s : SeqState) (allocOK : Bool) (sig : Int) :
    Int × SeqState :=
  if s.val = Word.w1 then
    (0, { s with val := Word.w0 })
  else
    skinny_mutex_unlock_slow s allocOK sig

/-- Modelled from the spec: `skinny_mutex_trylock` is declared and
exercised by src/test.c but its implementation is not under src/.
Spec §4.1: attempt `CAS(h.val, 0, 1)`; success → OK; failure on value
`1` → busy; failure on a pointer value → slow path that attempts
acquisition without blocking — obtain the locked fat mutex and return
busy if its `held` flag is true, else acquire (`held = true`); the fat
mutex's pthread mutex is not left locked.  The definition takes no wait
oracle: per spec §5, `trylock` never suspends the calling thread. -/
def skinny_mutex_trylock (s : SeqState) (allocOK : Bool) : Int × SeqState :=
  match s.val with
  | Word.w0 => (0, { s with val := Word.w1 })
  | Word.w1 => (EBUSY, s)
  | Word.fatPtr =>
    let rs := fat_mutex_get s Word.fatPtr allocOK
    if rs.1 = 0 then
      if fatHeld rs.2 then
        (EBUSY, { rs.2 with fatLocked := false })
      else
        (0, { setHeld rs.2 true with fatLocked := false })
    else
      rs

/-- A handle whose storage is bytewise zero: the single member `val` is
the all-zero-bits word, which on the supported platforms is the null
pointer, i.e. the encoding `0`. -/
def zeroedHandle (s : SeqState) : SeqState :=
  { s with val := Word.w0 }

/-- Concrete state: a freshly initialized handle — word `0`, no fat
block, nothing allocated. -/
def exInit : SeqState :=
  { val := Word.w0, fat := none, fatLocked := false,
    liveFat := 0, liveMutex := 0, liveCond := 0, livePeg := 0 }

/-- Concrete state: a handle holding the fast-path value `1` (held,
never contended, no fat block). -/
def exFastHeld : SeqState :=
  { exInit with val := Word.w1 }

/-- Concrete fat block of a held mutex: `held`, no waiters, refcount 1
(the holder's pseudo-reference). -/
def exHeldBlock : FatMutex :=
  { peg := 0, held := true, waiters := 0, refcount := 1 }

/-- Concrete fat block of an unheld but pinned mutex — e.g. one thread
is parked in a condition-variable wait associated with the handle:
`held` false, no acquisition waiters, refcount 1 (the parked thread's
reference). -/
def exUnheldBlock : FatMutex :=
  { peg := 0, held := false, waiters := 0, refcount := 1 }

/-- Concrete state: handle word points at `exHeldBlock`, whose pthread
mutex is not locked by anyone. -/
def exHeldFat : SeqState :=
  { val := Word.fatPtr, fat := some exHeldBlock, fatLocked := false,
    liveFat := 1, liveMutex := 1, liveCond := 1, livePeg := 0 }

/-- Concrete state: handle word points at `exUnheldBlock`, whose pthread
mutex is not locked by anyone.  This is exactly the situation
src/test.c's `do_test(test_unlock_not_held)` sets up in its second
phase, where a helper thread sits in `skinny_mutex_cond_wait` so that
the skinny mutex has a fat block while the main thread, which does not
hold the mutex, calls `skinny_mutex_unlock`. -/
def exUnheldFat : SeqState :=
  { val := Word.fatPtr, fat := some exUnheldBlock, fatLocked := false,
    liveFat := 1, liveMutex := 1, liveCond := 1, livePeg := 0 }

/-- Concrete state for `fat_mutex_release`: the caller has locked
`exUnheldBlock`'s pthread mutex and owns the last counted reference. -/
def exTeardown : SeqState :=
  { val := Word.fatPtr, fat := some exUnheldBlock, fatLocked := true,
    liveFat := 1, liveMutex := 1, liveCond := 1, livePeg := 0 }

/-- Helper: the C decrement of a positive in-range `unsigned long` is
the mathematical decrement. -/
theorem decW_of_pos {n : Nat} (hpos : 0 < n) (hlt : n < W) : decW n = n - 1 := by
  unfold decW
  have hW : 0 < W := by decide
  have h1 : n + (W - 1) = (n - 1) + W := by omega
  rw [h1, Nat.add_mod_right, Nat.mod_eq_of_lt (by omega)]

/-- Claim C2: every return of `skinny_mutex_cond_timedwait` by the
holder of the skinny mutex — with OK, with `ETIMEDOUT` after deadline
expiry (re-acquired via `fat_mutex_lock`), with any other error from the
underlying condition-variable wait (whose `held = 1` repair path runs
before the error is returned), and even with a `pthread_cond_signal`
error raised before the wait — leaves the fat block's `held` flag true
and its pthread mutex unlocked, and propagates the underlying result. -/
theorem cond_timedwait_returns_holding (s : SeqState) (f : FatMutex)
    (abstime : Option Nat) (sig : Int) (wait : Option Nat → Int) (ws : List Int)
    (hcase : s.val = Word.w1 ∨
      (s.val = Word.fatPtr ∧ s.fat = some f ∧ f.held = true)) :
    fatHeld (skinny_mutex_cond_timedwait s abstime true sig wait ws).2 = true ∧
    (skinny_mutex_cond_timedwait s abstime true sig wait ws).2.fatLocked = false ∧
    (skinny_mutex_cond_timedwait s abstime true sig wait ws).1 =
      (if s.val = Word.fatPtr ∧ f.waiters ≠ 0 ∧ sig ≠ 0 then sig
       else wait abstime) := by
  rcases hcase with h1 | ⟨h1, h2, h3⟩
  · have hne : ¬(s.val = Word.fatPtr ∧ f.waiters ≠ 0 ∧ sig ≠ 0) := by
      rw [h1]; simp
    rw [if_neg hne]
    by_cases hw : wait abstime = 0 ∨ wait abstime = ETIMEDOUT
    · simp [skinny_mutex_cond_timedwait, fat_mutex_get_held, fat_mutex_get,
        skinny_mutex_promote, h1, fatHeld, hw, fat_mutex_lock]
    · simp [skinny_mutex_cond_timedwait, fat_mutex_get_held, fat_mutex_get,
        skinny_mutex_promote, h1, fatHeld, hw, fat_mutex_lock]
  · by_cases hwsig : f.waiters ≠ 0 ∧ sig ≠ 0
    · rw [if_pos ⟨h1, hwsig⟩]
      simp [skinny_mutex_cond_timedwait, fat_mutex_get_held, fat_mutex_get,
        fat_mutex_peg, h1, h2, fatHeld, h3, hwsig]
    · rw [if_neg (fun h => hwsig h.2)]
      by_cases hw : wait abstime = 0 ∨ wait abstime = ETIMEDOUT
      · simp [skinny_mutex_cond_timedwait, fat_mutex_get_held, fat_mutex_get,
          fat_mutex_peg, h1, h2, fatHeld, h3, hwsig, hw, fat_mutex_lock]
      · simp [skinny_mutex_cond_timedwait, fat_mutex_get_held, fat_mutex_get,
          fat_mutex_peg, h1, h2, fatHeld, h3, hwsig, hw, fat_mutex_lock]

/-- Witness for claim C2: the holder calls `cond_timedwait` with a
deadline and the underlying wait times out; on return the mutex is held
again, the fat mutex is unlocked and `ETIMEDOUT` is propagated. -/
theorem cond_timedwait_returns_holding_witness :
    fatHeld (skinny_mutex_cond_timedwait exHeldFat (some 5) true 0
      (fun _ => ETIMEDOUT) []).2 = true ∧
    (skinny_mutex_cond_timedwait exHeldFat (some 5) true 0
      (fun _ => ETIMEDOUT) []).2.fatLocked = false ∧
    (skinny_mutex_cond_timedwait exHeldFat (some 5) true 0
      (fun _ => ETIMEDOUT) []).1 =
      (if exHeldFat.val = Word.fatPtr ∧ exHeldBlock.waiters ≠ 0 ∧ (0 : Int) ≠ 0
       then (0 : Int) else (fun _ => ETIMEDOUT) (some 5)) :=
  cond_timedwait_returns_holding exHeldFat exHeldBlock (some 5) 0
    (fun _ => ETIMEDOUT) [] (Or.inr ⟨rfl, rfl, rfl⟩)

/-- Claim C3 (evaluating the code at the failing input): on the state
src/test.c's `do_test(test_unlock_not_held)` reaches — the handle points
at a fat block whose `held` flag is false — both `skinny_mutex_unlock`
and `skinny_mutex_cond_wait` do return `EPERM` and leave the handle
word, the fat block's fields and the allocation ledgers unchanged, BUT
leave the fat block's pthread mutex locked: `fat_mutex_get_held` returns
`EPERM` without the `pthread_mutex_unlock(&fat->mutex)` that the no-side-
effects contract requires, so the next operation that locks the fat
mutex deadlocks.  On a handle whose word is `0` the permission error is
side-effect-free as claimed. -/
theorem unlock_unheld_fat_leaves_mutex_locked :
    (skinny_mutex_unlock exUnheldFat true 0).1 = EPERM ∧
    (skinny_mutex_unlock exUnheldFat true 0).2 =
      { exUnheldFat with fatLocked := true } ∧
    (skinny_mutex_cond_wait exUnheldFat true 0 (fun _ => 0) []).1 = EPERM ∧
    (skinny_mutex_cond_wait exUnheldFat true 0 (fun _ => 0) []).2 =
      { exUnheldFat with fatLocked := true } ∧
    (skinny_mutex_unlock exInit true 0).1 = EPERM ∧
    (skinny_mutex_unlock exInit true 0).2 = exInit := by
  decide

/-- Claim C4: `skinny_mutex_promote` with an observed handle value in
`{0, 1}` allocates a fat block with tag `0`, `held = (observed == 1)`,
`waiters = 0` and `refcount = (held ? 1 : 0)`; when the handle still
holds the observed value the installing CAS succeeds and the locked fat
block is installed, and when it does not the CAS fails, the block's
mutex and condition variable are destroyed, its memory is freed (the
allocation ledgers return to their old values) and the negative retry
signal is returned. -/
theorem promote_allocates_and_installs (s : SeqState) (head : Word)
    (hhead : head = Word.w0 ∨ head = Word.w1) :
    (s.val = head →
      skinny_mutex_promote s head true =
        (0, { s with
              val := Word.fatPtr,
              fat := some { peg := 0, held := decide (head = Word.w1),
                            waiters := 0,
                            refcount := if head = Word.w1 then 1 else 0 },
              fatLocked := true,
              liveFat := s.liveFat + 1, liveMutex := s.liveMutex + 1,
              liveCond := s.liveCond + 1 })) ∧
    (s.val ≠ head →
      (skinny_mutex_promote s head true).1 < 0 ∧
      (skinny_mutex_promote s head true).2 = s) := by
  cases s with
  | mk v f lk a b c d =>
    rcases hhead with h | h <;> subst h <;>
      constructor <;> intro hv <;> simp_all [skinny_mutex_promote]

/-- Witness for claim C4: promoting a handle that holds the fast-path
value `1` installs a locked fat block with `held`, refcount 1 and no
waiters. -/
theorem promote_allocates_and_installs_witness :
    skinny_mutex_promote exFastHeld Word.w1 true =
      (0, { val := Word.fatPtr,
            fat := some { peg := 0, held := true, waiters := 0, refcount := 1 },
            fatLocked := true,
            liveFat := 1, liveMutex := 1, liveCond := 1, livePeg := 0 }) :=
  (promote_allocates_and_installs exFastHeld Word.w1 (Or.inr rfl)).1 rfl

/-- Claim C5: `fat_mutex_release` on a locked fat block with `held`
false decrements the refcount exactly once, tears the block down (handle
word CASed to `0`, pthread mutex and condition variable destroyed,
memory freed) exactly when the decremented refcount is `0` and the
handle word still points at the block, and otherwise leaves every field
but the refcount intact and only unlocks the block's pthread mutex. -/
theorem fat_mutex_release_dec_and_teardown (s : SeqState) (f : FatMutex)
    (hfat : s.fat = some f) (_hlk : s.fatLocked = true) (_hheld : f.held = false)
    (hpos : 0 < f.refcount) (hlt : f.refcount < W) :
    (fat_mutex_release s).1 = 0 ∧
    (f.refcount = 1 ∧ s.val = Word.fatPtr →
      (fat_mutex_release s).2 =
        { s with
          val := Word.w0, fat := none, fatLocked := false,
          liveFat := s.liveFat - 1, liveMutex := s.liveMutex - 1,
          liveCond := s.liveCond - 1 }) ∧
    (¬(f.refcount = 1 ∧ s.val = Word.fatPtr) →
      (fat_mutex_release s).2 =
        { s with
          fat := some { f with refcount := f.refcount - 1 },
          fatLocked := false }) := by
  have hd : decW f.refcount = f.refcount - 1 := decW_of_pos hpos hlt
  simp only [fat_mutex_release, hfat, hd]
  by_cases hc : f.refcount - 1 = 0 ∧ s.val = Word.fatPtr
  · obtain ⟨hc1, hc2⟩ := hc
    rw [if_pos ⟨hc1, hc2⟩]
    refine ⟨rfl, fun _ => rfl, fun hn => absurd ⟨by omega, hc2⟩ hn⟩
  · rw [if_neg hc]
    refine ⟨rfl, fun h => ?_, fun _ => rfl⟩
    obtain ⟨h1, h2⟩ := h
    exact absurd ⟨by omega, h2⟩ hc

/-- Witness for claim C5: releasing the last counted reference of an
unheld fat block still installed in the handle tears it down — the
handle returns to `0` and the allocation ledgers drop to zero. -/
theorem fat_mutex_release_dec_and_teardown_witness :
    (fat_mutex_release exTeardown).1 = 0 ∧
    (fat_mutex_release exTeardown).2 =
      { val := Word.w0, fat := none, fatLocked := false,
        liveFat := 0, liveMutex := 0, liveCond := 0, livePeg := 0 } :=
  ⟨(fat_mutex_release_dec_and_teardown exTeardown exUnheldBlock rfl rfl rfl
      (by decide) (by decide)).1,
   (fat_mutex_release_dec_and_teardown exTeardown exUnheldBlock rfl rfl rfl
      (by decide) (by decide)).2.1 ⟨rfl, rfl⟩⟩

/-- Claim C6 (spec-modelled, the implementation of `skinny_mutex_trylock`
is not under src/): `trylock` CASes the handle word from `0` to `1` and
returns OK on success; on failure with the word `1` it returns busy; on
failure with a pointer it attempts the acquisition without blocking,
returning busy when the fat block's `held` flag is true and leaving the
fat block's pthread mutex unlocked.  The definition takes no wait
oracle, reflecting that `trylock` never suspends the calling thread. -/
theorem trylock_cases (s : SeqState) (f : FatMutex) :
    (s.val = Word.w0 →
      skinny_mutex_trylock s true = (0, { s with val := Word.w1 })) ∧
    (s.val = Word.w1 → skinny_mutex_trylock s true = (EBUSY, s)) ∧
    (s.val = Word.fatPtr → s.fat = some f → f.held = true →
      (skinny_mutex_trylock s true).1 = EBUSY ∧
      (skinny_mutex_trylock s true).2.fatLocked = false) := by
  refine ⟨fun h0 => ?_, fun h1 => ?_, fun h2 hf hh => ?_⟩
  · simp [skinny_mutex_trylock, h0]
  · simp [skinny_mutex_trylock, h1]
  · simp [skinny_mutex_trylock, h2, fat_mutex_get, fat_mutex_peg, hf,
      fatHeld, hh]

/-- Witness for claim C6: `trylock` on a handle whose fat block is held
returns busy without leaving the fat mutex locked. -/
theorem trylock_cases_witness :
    (skinny_mutex_trylock exHeldFat true).1 = EBUSY ∧
    (skinny_mutex_trylock exHeldFat true).2.fatLocked = false :=
  (trylock_cases exHeldFat exHeldBlock).2.2 rfl rfl rfl

/-- Claim C7: `skinny_mutex_init` writes `0` into the handle word and
returns OK, so a handle whose storage is bytewise zero is the very state
`init` produces, and every public operation — destroy, lock, trylock,
unlock, cond_wait, cond_timedwait — behaves identically on the two. -/
theorem zero_init_equiv (s : SeqState) (abstime : Option Nat)
    (allocOK : Bool) (sig : Int) (wait : Option Nat → Int) (ws : List Int) :
    skinny_mutex_init s = (0, zeroedHandle s) ∧
    skinny_mutex_destroy (zeroedHandle s) =
      skinny_mutex_destroy (skinny_mutex_init s).2 ∧
    skinny_mutex_lock (zeroedHandle s) allocOK ws =
      skinny_mutex_lock (skinny_mutex_init s).2 allocOK ws ∧
    skinny_mutex_trylock (zeroedHandle s) allocOK =
      skinny_mutex_trylock (skinny_mutex_init s).2 allocOK ∧
    skinny_mutex_unlock (zeroedHandle s) allocOK sig =
      skinny_mutex_unlock (skinny_mutex_init s).2 allocOK sig ∧
    skinny_mutex_cond_wait (zeroedHandle s) allocOK sig wait ws =
      skinny_mutex_cond_wait (skinny_mutex_init s).2 allocOK sig wait ws ∧
    skinny_mutex_cond_timedwait (zeroedHandle s) abstime allocOK sig wait ws =
      skinny_mutex_cond_timedwait (skinny_mutex_init s).2 abstime allocOK
        sig wait ws :=
  ⟨rfl, rfl, rfl, rfl, rfl, rfl, rfl⟩

/-- Claim C8: `skinny_mutex_destroy` returns OK when the handle word is
`0` and `EBUSY` otherwise, and in both cases changes nothing. -/
theorem destroy_busy_iff (s : SeqState) :
    (s.val = Word.w0 → skinny_mutex_destroy s = (0, s)) ∧
    (s.val ≠ Word.w0 → skinny_mutex_destroy s = (EBUSY, s)) := by
  constructor
  · intro h
    simp [skinny_mutex_destroy, h]
  · intro h
    simp [skinny_mutex_destroy, h]

/-- Witness for claim C8: destroy succeeds on an idle handle and
reports busy on a handle with a fat block, touching neither. -/
theorem destroy_busy_iff_witness :
    skinny_mutex_destroy exInit = (0, exInit) ∧
    skinny_mutex_destroy exHeldFat = (EBUSY, exHeldFat) :=
  ⟨(destroy_busy_iff exInit).1 rfl, (destroy_busy_iff exHeldFat).2 (by decide)⟩

/-- Claim C9: with the handle word `0` and no interference, `lock`
succeeds through the fast-path CAS from `0` to `1`, the following
`unlock` succeeds through the CAS from `1` to `0`, and the final state
is identical to the initial one. -/
theorem lock_unlock_fast_roundtrip (s : SeqState) (allocOK : Bool) (sig : Int)
    (ws : List Int) (h : s.val = Word.w0) :
    (skinny_mutex_lock s allocOK ws).1 = 0 ∧
    (skinny_mutex_lock s allocOK ws).2.val = Word.w1 ∧
    (skinny_mutex_unlock (skinny_mutex_lock s allocOK ws).2 allocOK sig).1 = 0 ∧
    (skinny_mutex_unlock (skinny_mutex_lock s allocOK ws).2 allocOK sig).2
      = s := by
  cases s with
  | mk v f lk a b c d =>
    cases h
    simp [skinny_mutex_lock, skinny_mutex_unlock]

/-- Witness for claim C9: the fast-path round trip on a freshly
initialized handle. -/
theorem lock_unlock_fast_roundtrip_witness :
    (skinny_mutex_lock exInit true []).1 = 0 ∧
    (skinny_mutex_lock exInit true []).2.val = Word.w1 ∧
    (skinny_mutex_unlock (skinny_mutex_lock exInit true []).2 true 0).1 = 0 ∧
    (skinny_mutex_unlock (skinny_mutex_lock exInit true []).2 true 0).2
      = exInit :=
  lock_unlock_fast_roundtrip exInit true 0 [] rfl

/-- Claim C10: `skinny_mutex_cond_wait` is exactly
`skinny_mutex_cond_timedwait` with a NULL deadline — same result, same
state change, for every state and every oracle. -/
theorem cond_wait_eq_timedwait_null (s : SeqState) (allocOK : Bool) (sig : Int)
    (wait : Option Nat → Int) (ws : List Int) :
    skinny_mutex_cond_wait s allocOK sig wait ws =
      skinny_mutex_cond_timedwait s none allocOK sig wait ws := rfl

end SkinnyMutex
